import Mathlib

/-!
Shallow embedding of the message-delivery-system hub (package `hub`,
file with handlers `register`, `listUsers`, `sendMessage`, `selfIdentify`,
`idInUse`, `websocketInit`).

Modelling conventions:
* a Go `string` is a list of characters (`GoStr`);
* a Go `[]byte` is a list of byte values (`Bytes`);
* the client map `map[uint64]chan []byte` is an association list from the
  identity to the sequence of payloads delivered into its channel, oldest
  first; a channel send `ch <- b` is modelled as appending `b` to that
  sequence (delivery to the attached consumer);
* channels created by the hub are never nil, so `exists && ch != nil`
  is modelled as a successful lookup; sending on the nil channel that a
  missing map key yields (in `websocketInit`'s reader) blocks forever and
  is modelled as an explicit `blocked` outcome;
* gin JSON error replies are modelled by an error code carrying the
  handler's error condition; the HTTP status is recovered by `HResp.code`.
-/

set_option autoImplicit false

namespace MsgHub

/-- A Go string, as its character sequence. -/
abbrev GoStr := List Char

/-- A Go byte slice, as the list of its byte values. -/
abbrev Bytes := List Nat

/-- Coerce a Lean string literal to the Go-string model. -/
def gs (s : String) : GoStr := s.data

/-- Model of Go `strings.Split(s, ",")`: the comma-separated chunks of `s`,
with `[""]` for the empty string, exactly as `strings.Split` behaves for a
one-character separator. -/
def splitComma : GoStr → List GoStr
  | [] => [[]]
  | c :: rest =>
    match splitComma rest with
    | [] => [[]]
    | cur :: parts => if c = ',' then [] :: cur :: parts else (c :: cur) :: parts

/-- Model of Go `strconv.ParseUint(s, 10, 64)`: `none` on the empty string,
on any non-digit character (a sign prefix is not permitted by `ParseUint`),
and on values that do not fit in 64 bits. -/
def parseUint64 (s : GoStr) : Option Nat :=
  if s = [] then none
  else if s.all Char.isDigit then
    let n := s.foldl (fun a c => a * 10 + (c.toNat - 48)) 0
    if n < 2 ^ 64 then some n else none
  else none

/-- The hub state: the `Clients` map from identity to the payloads delivered
into that identity's channel, oldest first. -/
structure Hub where
  clients : List (Nat × List Bytes)
deriving DecidableEq

/-- Map read `h.Clients[id]` (as a two-valued read: the queue when the key
is present, `none` otherwise). -/
def Hub.lookup (h : Hub) (id : Nat) : Option (List Bytes) :=
  (h.clients.find? (fun p => p.1 == id)).map Prod.snd

/-- Map write `h.Clients[id] = make(chan []byte)`: adds a fresh empty entry
(the handlers only assign after checking the key is absent). -/
def Hub.insert (h : Hub) (id : Nat) (q : List Bytes) : Hub :=
  ⟨h.clients ++ [(id, q)]⟩

/-- Channel send `h.Clients[id] <- b`: appends `b` to the entry's delivered
sequence. -/
def Hub.push (h : Hub) (id : Nat) (b : Bytes) : Hub :=
  ⟨h.clients.map (fun p => if p.1 = id then (p.1, p.2 ++ [b]) else p)⟩

/-- Map delete `delete(h.Clients, id)`: removes the entry; a no-op when the
key is absent, as in Go. -/
def Hub.erase (h : Hub) (id : Nat) : Hub :=
  ⟨h.clients.filter (fun p => p.1 != id)⟩

/-- The error conditions the handlers reply with (each corresponds to one
`c.JSON(..., gin.H{"status": ..., "message": ...})` site). -/
inductive HubErr where
  /-- "IDs are required (csv)" / "IDs is required" / "ID is required" -/
  | idsRequired
  /-- "Body expected for a sendmessage call" -/
  | bodyRequired
  /-- the `strconv.ParseUint` error message -/
  | parseError
  /-- "ID not registered" -/
  | idNotRegistered
  /-- "Maximum number of clients to send messages is 255" -/
  | maxRecipients
  /-- "ID already in use" -/
  | idAlreadyInUse
  /-- "Failed to find ID not in use" -/
  | allocExhausted
deriving DecidableEq

/-- A handler reply: a 200 with a body, a 400 with an error condition, or a
500 with an error condition. -/
inductive HResp (α : Type) where
  | ok (val : α)
  | badRequest (e : HubErr)
  | internalError (e : HubErr)
deriving DecidableEq

/-- The HTTP status code of a reply. -/
def HResp.code {α : Type} : HResp α → Nat
  | .ok _ => 200
  | .badRequest _ => 400
  | .internalError _ => 500

/-- `var maxAttempts = 5` — retry bound of random identity generation. -/
def maxAttempts : Nat := 5

/-- Source `idInUse`: despite its name it returns `true` when the identity
is NOT in the client map (the caller compensates by negating it). -/
def idInUse (h : Hub) (id : Nat) : Bool :=
  match h.lookup id with
  | some _ => false
  | none => true

/-- The random-identity loop of `register`: `cands k` is the value of the
`k`-th call of `r.Uint64()`; the loop keeps drawing while the candidate is
taken (`!h.idInUse(newID)`) and gives up once `attempts > maxAttempts`.
The structural `fuel` only bounds recursion depth; started at
`maxAttempts + 2` it can never reach `0` before the attempts bound fires,
so the `0` case is unreachable. -/
def genLoop (h : Hub) (cands : Nat → Nat) (attempts : Nat) : Nat → Option Nat
  | 0 => none
  | fuel + 1 =>
    if idInUse h (cands attempts) then some (cands attempts)
    else if attempts > maxAttempts then none
    else genLoop h cands (attempts + 1) fuel

/-- Handler `register` on query parameter `id` (`idQuery`, `[]` = absent):
no requested identity draws random candidates (`cands`); a requested
identity is parsed as uint64 and inserted only if absent. -/
def register (h : Hub) (idQuery : GoStr) (cands : Nat → Nat) : HResp Nat × Hub :=
  if idQuery = [] then
    match genLoop h cands 0 (maxAttempts + 2) with
    | none => (.internalError .allocExhausted, h)
    | some newID => (.ok newID, h.insert newID [])
  else
    match parseUint64 idQuery with
    | none => (.badRequest .parseError, h)
    | some newID =>
      if (h.lookup newID).isSome then (.badRequest .idAlreadyInUse, h)
      else (.ok newID, h.insert newID [])

/-- Handler `selfIdentify` on query parameter `id`: echoes the identity back
when it is registered. The hub state is not modified. -/
def selfIdentify (h : Hub) (idQuery : GoStr) : HResp Nat :=
  if idQuery = [] then .badRequest .idsRequired
  else
    match parseUint64 idQuery with
    | none => .badRequest .parseError
    | some parsedID =>
      if (h.lookup parsedID).isSome then .ok parsedID
      else .badRequest .idNotRegistered

/-- Handler `listUsers` on query parameter `id`: every key of the client map
except the caller's own id. The map-iteration order is immaterial here; the
association-list order stands in for it. -/
def listUsers (h : Hub) (idQuery : GoStr) : HResp (List Nat) :=
  if idQuery = [] then .badRequest .idsRequired
  else
    match parseUint64 idQuery with
    | none => .badRequest .parseError
    | some parsedID => .ok ((h.clients.map Prod.fst).filter (fun u => u != parsedID))

/-- The recipient loop of `sendMessage`: for each token in order, parse it,
require it registered, then `b = append(b, '\n')` and send the grown buffer
to the recipient's channel. The first failing token aborts the call, but
the sends already performed remain (the returned hub keeps them). -/
def sendLoop (h : Hub) (ids : List GoStr) (b : Bytes) : HResp Unit × Hub :=
  match ids with
  | [] => (.ok (), h)
  | id :: rest =>
    match parseUint64 id with
    | none => (.badRequest .parseError, h)
    | some parsedID =>
      match h.lookup parsedID with
      | none => (.badRequest .idNotRegistered, h)
      | some _ =>
        let b2 := b ++ [10]
        sendLoop (h.push parsedID b2) rest b2

/-- Handler `sendMessage` on query parameter `ids` and request body
(`none` = nil body): requires `ids` and a body, splits the csv, rejects
more than 255 recipients before any token is parsed, then runs the
recipient loop. -/
def sendMessage (h : Hub) (idsQuery : GoStr) (body : Option Bytes) : HResp Unit × Hub :=
  if idsQuery = [] then (.badRequest .idsRequired, h)
  else
    match body with
    | none => (.badRequest .bodyRequired, h)
    | some b =>
      let ids := splitComma idsQuery
      if ids.length > 255 then (.badRequest .maxRecipients, h)
      else sendLoop h ids b

/-- A wire envelope, Go type `types.SendingMessage`:
`{Recipients: "<csv of uint64>", Data: <bytes>}`. -/
structure Envelope where
  recipients : GoStr
  data : Bytes
deriving DecidableEq

/-- Outcome of the websocket reader's per-frame recipient loop. -/
inductive WsRouteResult where
  /-- the loop walked the whole recipient list -/
  | done (h : Hub)
  /-- the loop reached an unregistered recipient: `h.Clients[parsedID]` is
  the nil channel and the send on it blocks the reader forever; `h` holds
  the sends performed before blocking -/
  | blocked (h : Hub)
deriving DecidableEq

/-- The recipient loop inside `websocketInit`'s reader goroutine: tokens
that fail to parse are skipped (`continue`), registered recipients get the
raw `Data` (no newline is appended here), an unregistered recipient blocks
the goroutine on a nil-channel send. -/
def wsRouteLoop (h : Hub) (ids : List GoStr) (data : Bytes) : WsRouteResult :=
  match ids with
  | [] => .done h
  | id :: rest =>
    match parseUint64 id with
    | none => wsRouteLoop h rest data
    | some parsedID =>
      match h.lookup parsedID with
      | none => .blocked h
      | some _ => wsRouteLoop (h.push parsedID data) rest data

/-- What one `conn.ReadMessage()` in the reader goroutine produced. -/
inductive ReadInput where
  /-- a frame was read -/
  | frame (msg : Bytes)
  /-- a connection-level read error -/
  | ioError
deriving DecidableEq

/-- Outcome of one iteration of the reader goroutine's loop. -/
inductive ReaderStepResult where
  /-- the loop continues with the next frame; hub state as given -/
  | continued (h : Hub)
  /-- the goroutine is stuck on a nil-channel send and never loops again -/
  | blocked (h : Hub)
  /-- `conn.Close()` was called (`connClosed`), the owning identity was
  deleted from the client map, and `break` ended the loop -/
  | fatal (h : Hub) (connClosed : Bool)
deriving DecidableEq

/-- One iteration of the reader goroutine in `websocketInit`, for the
connection owned by `connectedID`. `decode` models `json.Unmarshal` into a
`types.SendingMessage` (`none` = unmarshal error). A read error closes the
connection, deletes the owner and breaks the loop; an unmarshal error only
logs and continues; otherwise the recipient loop runs. -/
def readerStep (decode : Bytes → Option Envelope) (h : Hub) (connectedID : Nat)
    (input : ReadInput) : ReaderStepResult :=
  match input with
  | .ioError => .fatal (h.erase connectedID) true
  | .frame msg =>
    match decode msg with
    | none => .continued h
    | some env =>
      match wsRouteLoop h (splitComma env.recipients) env.data with
      | .done h2 => .continued h2
      | .blocked h2 => .blocked h2

/-- The reader goroutine's fatal-error branch in `websocketInit`:
`conn.Close(); delete(h.Clients, connectedID)`. The second component
counts `conn.Close()` calls on this connection. -/
def readerFatalCleanup (h : Hub) (connectedID : Nat) (closeCalls : Nat) : Hub × Nat :=
  (h.erase connectedID, closeCalls + 1)

/-- The writer goroutine's fatal-error branch in `websocketInit`: the same
unguarded `conn.Close(); delete(h.Clients, connectedID)` sequence. -/
def writerFatalCleanup (h : Hub) (connectedID : Nat) (closeCalls : Nat) : Hub × Nat :=
  (h.erase connectedID, closeCalls + 1)

/-! Basic facts about the client-map operations. -/

theorem Hub.lookup_insert (h : Hub) (id : Nat) (q : List Bytes)
    (hnone : h.lookup id = none) : (h.insert id q).lookup id = some q := by
  unfold Hub.lookup at hnone ⊢
  unfold Hub.insert
  rw [Option.map_eq_none'] at hnone
  simp only [List.find?_append, hnone, Option.none_or]
  simp [List.find?]

theorem Hub.lookup_erase (h : Hub) (id : Nat) : (h.erase id).lookup id = none := by
  unfold Hub.lookup Hub.erase
  rw [Option.map_eq_none', List.find?_eq_none]
  intro x hx
  rw [List.mem_filter] at hx
  simpa using hx.2

theorem find?_push_eq (l : List (Nat × List Bytes)) (id : Nat) (b : Bytes) (q : List Bytes)
    (hq : (l.find? (fun p => p.1 == id)).map Prod.snd = some q) :
    ((l.map (fun p => if p.1 = id then (p.1, p.2 ++ [b]) else p)).find?
        (fun p => p.1 == id)).map Prod.snd = some (q ++ [b]) := by
  induction l with
  | nil => simp at hq
  | cons a t ih =>
    obtain ⟨k, qa⟩ := a
    by_cases hk : k = id
    · subst hk
      rw [List.find?_cons_of_pos _ (by simp)] at hq
      simp only [Option.map_some'] at hq
      cases hq
      simp only [List.map_cons, if_pos rfl]
      rw [List.find?_cons_of_pos _ (by simp)]
      rfl
    · rw [List.find?_cons_of_neg _ (by simp [hk])] at hq
      simp only [List.map_cons, if_neg hk]
      rw [List.find?_cons_of_neg _ (by simp [hk])]
      exact ih hq

theorem Hub.lookup_push (h : Hub) (id : Nat) (b : Bytes) (q : List Bytes)
    (hq : h.lookup id = some q) : (h.push id b).lookup id = some (q ++ [b]) :=
  find?_push_eq h.clients id b q hq

theorem idInUse_eq_true_iff (h : Hub) (id : Nat) :
    idInUse h id = true ↔ h.lookup id = none := by
  unfold idInUse
  cases h.lookup id <;> simp

theorem mem_users_iff (l : List (Nat × List Bytes)) (pid x : Nat) :
    x ∈ (l.map Prod.fst).filter (fun u => u != pid) ↔
      ((Hub.mk l).lookup x).isSome ∧ x ≠ pid := by
  simp only [List.mem_filter, List.mem_map, Hub.lookup, Option.isSome_map', List.find?_isSome,
    bne_iff_ne, ne_eq, beq_iff_eq]

/-! Facts about the random-identity generation loop. -/

theorem genLoop_some_free (h : Hub) (cands : Nat → Nat) :
    ∀ (fuel attempts id : Nat), genLoop h cands attempts fuel = some id →
      h.lookup id = none := by
  intro fuel
  induction fuel with
  | zero => intro attempts id hg; simp [genLoop] at hg
  | succ n ih =>
    intro attempts id hg
    simp only [genLoop] at hg
    by_cases hu : idInUse h (cands attempts)
    · rw [if_pos hu] at hg
      cases hg
      exact (idInUse_eq_true_iff h _).1 hu
    · rw [if_neg hu] at hg
      by_cases hb : attempts > maxAttempts
      · rw [if_pos hb] at hg; exact absurd hg (by simp)
      · rw [if_neg hb] at hg; exact ih _ _ hg

theorem genLoop_exhaust (h : Hub) (cands : Nat → Nat)
    (hall : ∀ k, k ≤ maxAttempts + 1 → (h.lookup (cands k)).isSome) :
    ∀ (fuel attempts : Nat), attempts ≤ maxAttempts + 1 →
      genLoop h cands attempts fuel = none := by
  intro fuel
  induction fuel with
  | zero => intro attempts _; rfl
  | succ n ih =>
    intro attempts hle
    have hu : idInUse h (cands attempts) = false := by
      have hs := hall attempts hle
      unfold idInUse
      cases hx : h.lookup (cands attempts) with
      | some _ => rfl
      | none => rw [hx] at hs; simp at hs
    simp only [genLoop, hu, Bool.false_eq_true, if_false]
    by_cases hb : attempts > maxAttempts
    · rw [if_pos hb]
    · rw [if_neg hb]
      exact ih (attempts + 1) (by omega)

/-! The claims. -/

/-- Claim C1, evidence against it: `sendMessage` on recipients `"1,2"` with
identity 1 registered and 2 not does fail with the not-registered error,
but recipient 1's queue has already received an entry — the fan-out is not
all-or-nothing; the single-pass loop wrote to the earlier recipient before
discovering the later one is unregistered. -/
theorem sendMessage_partial_write_on_unregistered :
    sendMessage ⟨[(1, [])]⟩ (gs "1,2") (some [72, 105]) =
      (.badRequest .idNotRegistered, ⟨[(1, [[72, 105, 10]])]⟩) ∧
    (Hub.mk [(1, [[72, 105, 10]])]).lookup 1 = some [[72, 105, 10]] := by decide

/-- Claim C2, evidence against it: a successful `sendMessage` to the two
registered recipients 1 and 2 delivers `payload ++ [newline]` to the first
recipient and `payload ++ [newline, newline]` to the second — one entry per
recipient, but the delivered bytes are not equal to the submitted payload
`[72, 105]`, and the mutated buffer keeps growing across recipients. -/
theorem sendMessage_delivers_mutated_payload :
    sendMessage ⟨[(1, []), (2, [])]⟩ (gs "1,2") (some [72, 105]) =
      (.ok (), ⟨[(1, [[72, 105, 10]]), (2, [[72, 105, 10, 10]])]⟩) ∧
    ([72, 105, 10] : Bytes) ≠ [72, 105] := by decide

/-- Claim C3: for any identity X not registered, an explicit `register`
succeeds and creates the entry, a subsequent `selfIdentify` echoes X back
unchanged, and a second explicit `register` of X fails with the in-use
error leaving the map unchanged. -/
theorem register_identify_reregister (h : Hub) (s : GoStr) (X : Nat)
    (cands cands2 : Nat → Nat)
    (hparse : parseUint64 s = some X) (hfree : h.lookup X = none) :
    register h s cands = (.ok X, h.insert X []) ∧
    (h.insert X []).lookup X = some [] ∧
    selfIdentify (h.insert X []) s = .ok X ∧
    register (h.insert X []) s cands2 = (.badRequest .idAlreadyInUse, h.insert X []) := by
  have hs : s ≠ [] := by
    intro he
    rw [he] at hparse
    simp [parseUint64] at hparse
  have hins := Hub.lookup_insert h X [] hfree
  refine ⟨?_, hins, ?_, ?_⟩
  · unfold register
    simp [hs, hparse, hfree]
  · unfold selfIdentify
    simp [hs, hparse, hins]
  · unfold register
    simp [hs, hparse, hins]

/-- Claim C3 witness at X = 9001 on the empty hub. -/
theorem register_identify_reregister_witness :
    register ⟨[]⟩ (gs "9001") (fun _ => 0) = (.ok 9001, Hub.insert ⟨[]⟩ 9001 []) ∧
    (Hub.insert ⟨[]⟩ 9001 []).lookup 9001 = some [] ∧
    selfIdentify (Hub.insert ⟨[]⟩ 9001 []) (gs "9001") = .ok 9001 ∧
    register (Hub.insert ⟨[]⟩ 9001 []) (gs "9001") (fun _ => 0) =
      (.badRequest .idAlreadyInUse, Hub.insert ⟨[]⟩ 9001 []) :=
  register_identify_reregister ⟨[]⟩ (gs "9001") 9001 (fun _ => 0) (fun _ => 0)
    (by decide) (by decide)

/-- Claim C4, evidence against it: the same envelope (recipients `"x,1"`,
payload `[72, 105]`) submitted via POST /send is rejected whole with a parse
error and writes nothing, while arriving as a websocket frame it skips the
unparseable token and delivers the raw payload to recipient 1 — the two
submission paths do not produce the same validation outcome or the same
queue writes. -/
theorem route_paths_differ :
    sendMessage ⟨[(1, [])]⟩ (gs "x,1") (some [72, 105]) =
      (.badRequest .parseError, ⟨[(1, [])]⟩) ∧
    wsRouteLoop ⟨[(1, [])]⟩ (splitComma (gs "x,1")) [72, 105] =
      .done ⟨[(1, [[72, 105]])]⟩ ∧
    (Hub.mk [(1, [[72, 105]])]) ≠ ⟨[(1, [])]⟩ := by decide

/-- Claim C4 as amended: the two submission paths diverge — for a recipient
list made of an unparseable token followed by a registered recipient, the
POST /send loop fails the whole call with a parse error and performs no
queue writes, while the websocket frame loop skips the unparseable token
and appends the raw payload (without the newline the POST path would add)
to the registered recipient's queue. -/
theorem route_paths_divergence (h : Hub) (s t : GoStr) (pid : Nat)
    (q : List Bytes) (b : Bytes)
    (hs : parseUint64 s = none) (ht : parseUint64 t = some pid)
    (hq : h.lookup pid = some q) :
    sendLoop h [s, t] b = (.badRequest .parseError, h) ∧
    wsRouteLoop h [s, t] b = .done (h.push pid b) ∧
    (h.push pid b).lookup pid = some (q ++ [b]) := by
  refine ⟨?_, ?_, Hub.lookup_push h pid b q hq⟩
  · simp [sendLoop, hs]
  · simp [wsRouteLoop, hs, ht, hq]

/-- Claim C4 amended-claim witness on a concrete hub and envelope. -/
theorem route_paths_divergence_witness :
    sendLoop ⟨[(1, [])]⟩ [gs "x", gs "1"] [72, 105] =
      (.badRequest .parseError, ⟨[(1, [])]⟩) ∧
    wsRouteLoop ⟨[(1, [])]⟩ [gs "x", gs "1"] [72, 105] =
      .done (Hub.push ⟨[(1, [])]⟩ 1 [72, 105]) ∧
    (Hub.push ⟨[(1, [])]⟩ 1 [72, 105]).lookup 1 = some ([] ++ [[72, 105]]) :=
  route_paths_divergence ⟨[(1, [])]⟩ (gs "x") (gs "1") 1 [] [72, 105]
    (by decide) (by decide) (by decide)

/-- Claim C5, evidence against it: the reader and writer goroutines each run
the same unguarded `conn.Close(); delete(h.Clients, connectedID)` sequence
on a fatal error; when both units observe a failure, `conn.Close()` has been
called twice (the close-call count ends at 2, not 1), even though the second
map delete is a no-op. -/
theorem dual_cleanup_double_close :
    (writerFatalCleanup (readerFatalCleanup ⟨[(5, [])]⟩ 5 0).1 5
        (readerFatalCleanup ⟨[(5, [])]⟩ 5 0).2).2 = 2 ∧
    (writerFatalCleanup (readerFatalCleanup ⟨[(5, [])]⟩ 5 0).1 5
        (readerFatalCleanup ⟨[(5, [])]⟩ 5 0).2).1 =
      (readerFatalCleanup ⟨[(5, [])]⟩ 5 0).1 := by decide

/-- Claim C6: a `register` call with no requested identity that succeeds
returns an identity that was absent beforehand and whose new entry has an
empty queue; if every candidate up to the retry bound is taken, the call
fails with the internal allocation-exhausted error and the map is
unchanged. -/
theorem register_random_spec :
    (∀ (h : Hub) (cands : Nat → Nat) (id : Nat) (h2 : Hub),
        register h [] cands = (.ok id, h2) →
        h.lookup id = none ∧ h2.lookup id = some []) ∧
    (∀ (h : Hub) (cands : Nat → Nat),
        (∀ k, k ≤ maxAttempts + 1 → (h.lookup (cands k)).isSome) →
        register h [] cands = (.internalError .allocExhausted, h)) := by
  constructor
  · intro h cands id h2 hreg
    unfold register at hreg
    rw [if_pos rfl] at hreg
    cases hgen : genLoop h cands 0 (maxAttempts + 2) with
    | none => rw [hgen] at hreg; simp at hreg
    | some nid =>
      rw [hgen] at hreg
      simp only [Prod.mk.injEq, HResp.ok.injEq] at hreg
      obtain ⟨rfl, rfl⟩ := hreg
      have hfree := genLoop_some_free h cands _ _ _ hgen
      exact ⟨hfree, Hub.lookup_insert h _ [] hfree⟩
  · intro h cands hall
    unfold register
    rw [if_pos rfl, genLoop_exhaust h cands hall (maxAttempts + 2) 0 (by omega)]

/-- Claim C6 witness: a successful allocation on the empty hub and an
exhausted allocation on a hub owning every candidate. -/
theorem register_random_spec_witness :
    ((⟨[]⟩ : Hub).lookup 7 = none ∧ (Hub.insert ⟨[]⟩ 7 []).lookup 7 = some []) ∧
    register ⟨[(42, [])]⟩ [] (fun _ => 42) =
      (.internalError .allocExhausted, ⟨[(42, [])]⟩) :=
  ⟨register_random_spec.1 ⟨[]⟩ (fun _ => 7) 7 (Hub.insert ⟨[]⟩ 7 []) (by decide),
   register_random_spec.2 ⟨[(42, [])]⟩ (fun _ => 42) (fun _ _ => rfl)⟩

/-- Claim C7, evidence against it: `listUsers` with no caller identity does
not return the full set of registered identities — it rejects the call with
the missing-id Bad Request error (HTTP 400), on the registry {100, 200}
of the claim's concrete instance. -/
theorem listUsers_requires_id :
    listUsers ⟨[(100, []), (200, [])]⟩ [] = .badRequest .idsRequired ∧
    (listUsers ⟨[(100, []), (200, [])]⟩ []).code = 400 := by decide

/-- Claim C7 as amended: for every registered identity X, `listUsers` called
with caller identity X returns exactly the registered identities minus X
(never including X); a call with no caller identity supplied is rejected
with the missing-id Bad Request error rather than returning the full set. -/
theorem listOthers_excludes_caller (h : Hub) (s : GoStr) (X : Nat)
    (hp : parseUint64 s = some X) (_hreg : (h.lookup X).isSome) :
    listUsers h s = .ok ((h.clients.map Prod.fst).filter (fun u => u != X)) ∧
    X ∉ (h.clients.map Prod.fst).filter (fun u => u != X) ∧
    (∀ y, y ∈ (h.clients.map Prod.fst).filter (fun u => u != X) ↔
      ((h.lookup y).isSome ∧ y ≠ X)) ∧
    listUsers h [] = .badRequest .idsRequired := by
  have hs : s ≠ [] := by
    intro he
    rw [he] at hp
    simp [parseUint64] at hp
  refine ⟨?_, ?_, ?_, rfl⟩
  · unfold listUsers
    simp [hs, hp]
  · intro hmem
    exact ((mem_users_iff h.clients X X).1 hmem).2 rfl
  · intro y
    exact mem_users_iff h.clients X y

/-- Claim C7 amended-claim witness on the registry {100, 200} with caller
identity 100. -/
theorem listOthers_excludes_caller_witness :
    listUsers ⟨[(100, []), (200, [])]⟩ (gs "100") = .ok [200] ∧
    (100 : Nat) ∉ ([200] : List Nat) ∧
    listUsers ⟨[(100, []), (200, [])]⟩ [] = .badRequest .idsRequired := by
  have h := listOthers_excludes_caller ⟨[(100, []), (200, [])]⟩ (gs "100") 100
    (by decide) (by decide)
  exact ⟨h.1, h.2.1, h.2.2.2⟩

/-- Claim C8: whenever the recipients csv splits into more than 255 tokens,
`sendMessage` fails with the maximum-recipients error and leaves the hub
unchanged — for every token content, so the count check is decided before
any token has to parse as a uint64. -/
theorem sendMessage_count_before_parse (h : Hub) (idsQuery : GoStr) (b : Bytes)
    (hne : idsQuery ≠ []) (hlen : 255 < (splitComma idsQuery).length) :
    sendMessage h idsQuery (some b) = (.badRequest .maxRecipients, h) := by
  unfold sendMessage
  simp [hne, hlen]

set_option maxRecDepth 8000 in
/-- Claim C8 witness: a csv of 255 commas splits into 256 tokens, all of
them empty hence unparseable, and is rejected with the count error. -/
theorem sendMessage_count_before_parse_witness :
    sendMessage ⟨[(1, [])]⟩ (List.replicate 255 ',') (some [72]) =
      (.badRequest .maxRecipients, ⟨[(1, [])]⟩) :=
  sendMessage_count_before_parse ⟨[(1, [])]⟩ (List.replicate 255 ',') [72]
    (by decide) (by decide)

/-- Claim C9: in the websocket reader loop, a frame that fails to decode as
an envelope leaves the loop running and the client map unchanged, while a
connection-level read error closes the connection, removes the owning
identity's entry, and terminates the loop. -/
theorem readerStep_decode_vs_io (decode : Bytes → Option Envelope) (h : Hub)
    (cid : Nat) (msg : Bytes) (hdec : decode msg = none) :
    readerStep decode h cid (.frame msg) = .continued h ∧
    readerStep decode h cid .ioError = .fatal (h.erase cid) true ∧
    (h.erase cid).lookup cid = none := by
  refine ⟨?_, rfl, Hub.lookup_erase h cid⟩
  simp [readerStep, hdec]

/-- Claim C9 witness with a decoder rejecting every frame. -/
theorem readerStep_decode_vs_io_witness :
    readerStep (fun _ => none) ⟨[(5, [])]⟩ 5 (.frame [123]) = .continued ⟨[(5, [])]⟩ ∧
    readerStep (fun _ => none) ⟨[(5, [])]⟩ 5 .ioError =
      .fatal (Hub.erase ⟨[(5, [])]⟩ 5) true ∧
    (Hub.erase ⟨[(5, [])]⟩ 5).lookup 5 = none :=
  readerStep_decode_vs_io (fun _ => none) ⟨[(5, [])]⟩ 5 [123] rfl

/-- Claim C10: `listUsers` succeeds (HTTP 200) for every syntactically valid
uint64 caller id, registered or not, returning the registered identities
other than that id; a missing or unparseable id parameter is rejected with
HTTP 400. -/
theorem listUsers_any_valid_id (h : Hub) (s : GoStr) (pid : Nat)
    (hp : parseUint64 s = some pid) :
    (listUsers h s).code = 200 ∧
    listUsers h s = .ok ((h.clients.map Prod.fst).filter (fun u => u != pid)) ∧
    (∀ x, x ∈ (h.clients.map Prod.fst).filter (fun u => u != pid) ↔
      ((h.lookup x).isSome ∧ x ≠ pid)) ∧
    (∀ t : GoStr, parseUint64 t = none → (listUsers h t).code = 400) := by
  have hs : s ≠ [] := by
    intro he
    rw [he] at hp
    simp [parseUint64] at hp
  have hok : listUsers h s = .ok ((h.clients.map Prod.fst).filter (fun u => u != pid)) := by
    unfold listUsers
    simp [hs, hp]
  refine ⟨by rw [hok]; rfl, hok, fun x => mem_users_iff h.clients pid x, ?_⟩
  intro t ht
  unfold listUsers
  by_cases hte : t = []
  · rw [if_pos hte]; rfl
  · rw [if_neg hte, ht]; rfl

/-- Claim C10 witness: caller id 300 is syntactically valid but not
registered in {100, 200}, and the call still succeeds with the full set. -/
theorem listUsers_any_valid_id_witness :
    (listUsers ⟨[(100, []), (200, [])]⟩ (gs "300")).code = 200 ∧
    listUsers ⟨[(100, []), (200, [])]⟩ (gs "300") = .ok [100, 200] := by
  have h := listUsers_any_valid_id ⟨[(100, []), (200, [])]⟩ (gs "300") 300 (by decide)
  exact ⟨h.1, h.2.1⟩

end MsgHub
